import Mathlib

/-!
Shallow embedding of the message classification engine of `src/parser/mod.rs`
(the `parse_message` pipeline and its helpers), together with the record types
of `src/db/mod.rs` that it produces.

Modelling conventions:
* Rust `serde_json::Value` is the inductive `Json`; `serde_json::Number` is
  `JNum` (an integer backed by i64/u64, or a double, modelled as `Rat`).
* The external `serde_json::from_str` parser is a parameter
  `jp : String → Option Json` threaded through the functions that call it;
  the external `chrono` clock and date parsers are a parameter `Chrono`
  (instants are modelled as abstract `Int` values, so `with_timezone(&Utc)`
  is the identity on instants).
* Byte payloads are `List Nat`; `String::from_utf8` is the strict UTF-8
  decoder `decodeUtf8`, implemented from the UTF-8 validity rules (rejecting
  overlong forms, surrogates and code points above 0x10FFFF).
* Rust `str::len` is byte length (`byteLen`); `str::split` is `splitAux`;
  `str::contains` is `strContains`; `str::to_lowercase` is modelled as the
  ASCII lowering `lowerString` (the needles matched in the source are ASCII).
* `v as i32` on an `i64` is the wrapping truncation `castI32`.
-/

namespace Desmo

inductive JNum where
  | int (i : Int)
  | float (q : Rat)

inductive Json where
  | null
  | bool (b : Bool)
  | num (n : JNum)
  | str (s : String)
  | arr (elems : List Json)
  | obj (fields : List (String × Json))

/-- Key lookup in a JSON object field list (serde maps have unique keys). -/
def jLookup (key : String) : List (String × Json) → Option Json
  | [] => none
  | kv :: rest => if kv.1 = key then some kv.2 else jLookup key rest

/-- Rust `Value::get(key)`: `Some` only on objects holding the key. -/
def Json.get : Json → String → Option Json
  | Json.obj fields, key => jLookup key fields
  | _, _ => none

/-- Rust `Value::as_str`. -/
def Json.as_str : Json → Option String
  | Json.str s => some s
  | _ => none

/-- Rust `Value::as_i64`: integer-backed numbers within the i64 range. -/
def Json.as_i64 : Json → Option Int
  | Json.num (JNum.int i) => if -(2 ^ 63) ≤ i ∧ i < 2 ^ 63 then some i else none
  | _ => none

/-- Rust `Value::as_f64`: any number (floats kept exact as rationals). -/
def Json.as_f64 : Json → Option Rat
  | Json.num (JNum.int i) => some (i : Rat)
  | Json.num (JNum.float q) => some q
  | _ => none

/-- Rust `Value::as_array`. -/
def Json.as_array : Json → Option (List Json)
  | Json.arr xs => some xs
  | _ => none

/-- Rust `Value::as_object` (fields in document order). -/
def Json.as_object : Json → Option (List (String × Json))
  | Json.obj fs => some fs
  | _ => none

/-- Rust `v as i32` on an i64 value: wrapping truncation to 32 bits. -/
def castI32 (v : Int) : Int := (v + 2 ^ 31) % 2 ^ 32 - 2 ^ 31

/-- External `chrono` interface: instants are abstract `Int` values.
`parseRfc3339` stands for `DateTime::parse_from_rfc3339` followed by
`with_timezone(&Utc)` (identity on the instant), `fromTimestamp` for
`DateTime::from_timestamp(_, 0)`, `now` for `Utc::now()` during this
classification call. -/
structure Chrono where
  parseRfc3339 : String → Option Int
  fromTimestamp : Int → Option Int
  now : Int

structure SocketRead where
  topic : String
  payload : String
  timestamp : Int
deriving DecidableEq

structure SensorReading where
  device_id : String
  topic : String
  value : Rat
  timestamp : Int

structure DeviceLog where
  device_id : String
  level : String
  message : String
  topic : String
  timestamp : Int
deriving DecidableEq

structure DeviceState where
  device_id : String
  topic : String
  main_state : Option Int
  secondary_state : Option Int
  alerts : Option Json
  rssi : Option Int
  timestamp : Int

structure DeviceHealth where
  device_id : String
  topic : String
  wifi_ssid : Option String
  free_heap_size : Option Int
  min_heap_size : Option Int
  unexpected_reset_counter : Option Int
  last_reset_reason : Option String
  wifi_connect_counter : Option Int
  cloud_connect_counter : Option Int
  last_wifi_connection_ts : Option Int
  last_cloud_connection_ts : Option Int
  timestamp : Int

inductive ParsedMessage where
  | SensorReading (r : SensorReading)
  | SocketRead (r : SocketRead)
  | DeviceLog (l : DeviceLog)
  | DeviceState (s : DeviceState)
  | DeviceHealth (h : DeviceHealth)

/-! ### String primitives (Rust `str` operations, kernel-reducible) -/

/-- List-level test that `p` is an initial run of the second list. -/
def startsWithList : List Char → List Char → Bool
  | [], _ => true
  | _ :: _, [] => false
  | p :: ps, c :: cs => decide (p = c) && startsWithList ps cs

/-- List-level test that `needle` occurs contiguously in the second list. -/
def containsList (needle : List Char) : List Char → Bool
  | [] => needle.isEmpty
  | c :: rest => startsWithList needle (c :: rest) || containsList needle rest

/-- Rust `str::contains` on valid UTF-8 text. -/
def strContains (hay needle : String) : Bool :=
  containsList needle.toList hay.toList

/-- Rust `str::starts_with`. -/
def strStarts (s pre : String) : Bool :=
  startsWithList pre.toList s.toList

/-- ASCII lowering of one character (model of Unicode lowercasing for the
ASCII needles the source matches). -/
def lowerChar (c : Char) : Char :=
  if 65 ≤ c.toNat ∧ c.toNat ≤ 90 then Char.ofNat (c.toNat + 32) else c

/-- Model of Rust `str::to_lowercase`. -/
def lowerString (s : String) : String := String.mk (s.toList.map lowerChar)

/-- UTF-8 size of one scalar value. -/
def charUtf8Size (c : Char) : Nat :=
  if c.toNat ≤ 0x7F then 1
  else if c.toNat ≤ 0x7FF then 2
  else if c.toNat ≤ 0xFFFF then 3
  else 4

/-- Rust `str::len`: length in bytes. -/
def byteLen (s : String) : Nat :=
  (s.toList.map charUtf8Size).sum

/-- Accumulator form of Rust `str::split('/')`. -/
def splitAux (sep : Char) : List Char → List Char → List (List Char)
  | [], acc => [acc.reverse]
  | c :: rest, acc =>
    if c = sep then acc.reverse :: splitAux sep rest []
    else splitAux sep rest (c :: acc)

/-- Rust `topic.split('/')` collected to a list of segments. -/
def topicParts (topic : String) : List String :=
  (splitAux '/' topic.toList []).map String.mk

/-! ### Strict UTF-8 decoding (Rust `String::from_utf8`) -/

/-- Continuation byte test (0x80–0xBF). -/
def contByte (b : Nat) : Bool := decide (0x80 ≤ b ∧ b ≤ 0xBF)

/-- Second-byte constraint of a three-byte sequence (excludes overlong
forms after 0xE0 and surrogates after 0xED). -/
def cont3Ok (b b2 : Nat) : Bool :=
  if b = 0xE0 then decide (0xA0 ≤ b2 ∧ b2 ≤ 0xBF)
  else if b = 0xED then decide (0x80 ≤ b2 ∧ b2 ≤ 0x9F)
  else contByte b2

/-- Second-byte constraint of a four-byte sequence (excludes overlong forms
after 0xF0 and code points above 0x10FFFF after 0xF4). -/
def cont4Ok (b b2 : Nat) : Bool :=
  if b = 0xF0 then decide (0x90 ≤ b2 ∧ b2 ≤ 0xBF)
  else if b = 0xF4 then decide (0x80 ≤ b2 ∧ b2 ≤ 0x8F)
  else contByte b2

/-- Strict UTF-8 decoding of a byte list, as validated by
`String::from_utf8`: `none` exactly on invalid sequences. -/
def decodeUtf8 : List Nat → Option (List Char)
  | [] => some []
  | b :: rest =>
    if b ≤ 0x7F then
      (decodeUtf8 rest).map (fun cs => Char.ofNat b :: cs)
    else if 0xC2 ≤ b ∧ b ≤ 0xDF then
      match rest with
      | b2 :: rest2 =>
        if contByte b2 then
          (decodeUtf8 rest2).map
            (fun cs => Char.ofNat ((b - 0xC0) * 0x40 + (b2 - 0x80)) :: cs)
        else none
      | [] => none
    else if 0xE0 ≤ b ∧ b ≤ 0xEF then
      match rest with
      | b2 :: b3 :: rest3 =>
        if cont3Ok b b2 && contByte b3 then
          (decodeUtf8 rest3).map
            (fun cs =>
              Char.ofNat ((b - 0xE0) * 0x1000 + (b2 - 0x80) * 0x40 + (b3 - 0x80)) :: cs)
        else none
      | _ => none
    else if 0xF0 ≤ b ∧ b ≤ 0xF4 then
      match rest with
      | b2 :: b3 :: b4 :: rest4 =>
        if cont4Ok b b2 && contByte b3 && contByte b4 then
          (decodeUtf8 rest4).map
            (fun cs =>
              Char.ofNat
                ((b - 0xF0) * 0x40000 + (b2 - 0x80) * 0x1000 +
                  (b3 - 0x80) * 0x40 + (b4 - 0x80)) :: cs)
        else none
      | _ => none
    else none

/-- ASCII text to bytes (for concrete payloads in examples). -/
def asciiBytes (s : String) : List Nat := s.toList.map Char.toNat

/-! ### Field extractors (`extract_device_id`, `extract_timestamp`) -/

/-- Loop of `extract_device_id` over topic segments: first segment that
starts with `device` or is at least 8 bytes long. -/
def findDevicePart : List String → Option String
  | [] => none
  | part :: rest =>
    if strStarts part "device" || decide (8 ≤ byteLen part) then some part
    else findDevicePart rest

/-- Embedding of `extract_device_id` (`mod.rs` lines 178–201): JSON fields
`device_id` / `deviceId` / `device` first, else a scan of the topic segments
guarded by `parts.len() >= 2`, else the sentinel `unknown`. -/
def extract_device_id (topic : String) (json : Json) : Option String :=
  match ((json.get "device_id" <|> json.get "deviceId") <|> json.get "device").bind
      Json.as_str with
  | some id => some id
  | none =>
    let parts := topicParts topic
    if 2 ≤ parts.length then
      match findDevicePart parts with
      | some part => some part
      | none => some "unknown"
    else some "unknown"

/-- Embedding of `extract_timestamp` (`mod.rs` lines 204–222): field
`timestamp` else `ts`; RFC 3339 string first, then integer epoch seconds,
else the classification instant. -/
def extract_timestamp (ch : Chrono) (json : Json) : Int :=
  match json.get "timestamp" <|> json.get "ts" with
  | none => ch.now
  | some ts =>
    match ts.as_str.bind ch.parseRfc3339 with
    | some dt => dt
    | none =>
      match ts.as_i64.bind ch.fromTimestamp with
      | some dt => dt
      | none => ch.now

/-! ### JSON classifiers -/

/-- Embedding of `parse_sensor_readings` (`mod.rs` lines 67–121): a single
`value` field, a `sensors` array of `{name, value}` objects, and a flat scan
of the object for numeric fields other than `timestamp` / `device_id`;
`none` when no reading was produced. -/
def parse_sensor_readings (ch : Chrono) (topic : String) (json : Json) :
    Option (List SensorReading) :=
  (extract_device_id topic json).bind (fun device_id =>
    let single : List SensorReading :=
      match (json.get "value").bind Json.as_f64 with
      | some value => [⟨device_id, topic, value, extract_timestamp ch json⟩]
      | none => []
    let fromArray : List SensorReading :=
      match (json.get "sensors").bind Json.as_array with
      | some sensors =>
        sensors.filterMap (fun sensor =>
          match (sensor.get "name").bind Json.as_str,
              (sensor.get "value").bind Json.as_f64 with
          | some name, some value =>
            some ⟨device_id, topic ++ "/" ++ name, value, extract_timestamp ch json⟩
          | _, _ => none)
      | none => []
    let flat : List SensorReading :=
      match json.as_object with
      | some fs =>
        fs.filterMap (fun kv =>
          match kv.2.as_f64 with
          | some num =>
            if kv.1 ≠ "timestamp" ∧ kv.1 ≠ "device_id" then
              some ⟨device_id, topic ++ "/" ++ kv.1, num, extract_timestamp ch json⟩
            else none
          | none => none)
      | none => []
    let readings := single ++ fromArray ++ flat
    if readings.isEmpty then none else some readings)

/-- Embedding of `parse_device_log` (`mod.rs` lines 124–146): a string
`level` / `severity` field and a string `message` / `msg` / `text` field. -/
def parse_device_log (ch : Chrono) (topic : String) (json : Json) :
    Option DeviceLog :=
  ((json.get "level" <|> json.get "severity").bind Json.as_str).bind (fun level =>
    (((json.get "message" <|> json.get "msg") <|> json.get "text").bind
        Json.as_str).bind (fun message =>
      (extract_device_id topic json).map (fun device_id =>
        ⟨device_id, level, message, topic, extract_timestamp ch json⟩)))

/-- Embedding of `parse_plain_text_log` (`mod.rs` lines 149–175): device id
from the first non-reserved topic segment, level from substring heuristics
(raw topic, lowercased text), verbatim message. -/
def parse_plain_text_log (ch : Chrono) (topic text : String) : Option DeviceLog :=
  let device_id :=
    ((topicParts topic).find? (fun part =>
        decide (part ≠ "" ∧ part ≠ "diagnostics" ∧ part ≠ "debug" ∧ part ≠ "logs"))).getD
      "unknown"
  let level :=
    if strContains topic "error" || strContains (lowerString text) "error" then "ERROR"
    else if strContains topic "warn" || strContains (lowerString text) "warn" then "WARN"
    else if strContains topic "debug" || strContains topic "diagnostics" then "DEBUG"
    else "INFO"
  some ⟨device_id, level, text, topic, ch.now⟩

/-- Normalization of the `health` field value (`mod.rs` lines 265–269): a
JSON string is re-parsed as an embedded document, any other value is used
directly (`health_value.clone()`). -/
def healthNorm (jp : String → Option Json) (health_value : Json) : Option Json :=
  match health_value.as_str with
  | some health_str => jp health_str
  | none => some health_value

/-- Embedding of `parse_device_state_and_health` (`mod.rs` lines 233–291):
triggers on any of `main_state` / `secondary_state` / `alerts` / `rssi`;
health is extracted from a `health` field (string-embedded JSON re-parsed
through `jp`, or a direct value) whose `general` sub-object is required. -/
def parse_device_state_and_health (jp : String → Option Json) (ch : Chrono)
    (topic : String) (json : Json) : Option (DeviceState × Option DeviceHealth) :=
  let has_state_fields :=
    (json.get "main_state").isSome || (json.get "secondary_state").isSome ||
      (json.get "alerts").isSome || (json.get "rssi").isSome
  if !has_state_fields then none
  else
    (extract_device_id topic json).bind (fun device_id =>
      let timestamp := extract_timestamp ch json
      let device_state : DeviceState :=
        ⟨device_id, topic,
          ((json.get "main_state").bind Json.as_i64).map castI32,
          ((json.get "secondary_state").bind Json.as_i64).map castI32,
          json.get "alerts",
          ((json.get "rssi").bind Json.as_i64).map castI32,
          timestamp⟩
      let device_health : Option DeviceHealth :=
        (json.get "health").bind (fun health_value =>
          (healthNorm jp health_value).bind (fun health_json =>
            (health_json.get "general").map (fun (general : Json) =>
              ⟨device_id, topic,
                (general.get "wifiSsid").bind Json.as_str,
                (general.get "freeHeapSize").bind Json.as_i64,
                (general.get "minHeapSize").bind Json.as_i64,
                ((general.get "unexpectedResetCounter").bind Json.as_i64).map castI32,
                (general.get "lastResetReason").bind Json.as_str,
                ((general.get "wifiConnectCounter").bind Json.as_i64).map castI32,
                ((general.get "cloudConnectCounter").bind Json.as_i64).map castI32,
                (general.get "lastWifiConnectionTs").bind Json.as_i64,
                (general.get "lastCloudConnectionTs").bind Json.as_i64,
                timestamp⟩)))
      some (device_state, device_health))

/-! ### Top-level classification (`parse_message`) -/

/-- Records pushed by `parse_message` after the leading raw capture: the
JSON path (device state with optional health, else sensor readings followed
by the device log) or the plain-text log path. -/
def classifyTail (jp : String → Option Json) (ch : Chrono) (topic : String)
    (payload_str : String) : List ParsedMessage :=
  match jp payload_str with
  | some json =>
    match parse_device_state_and_health jp ch topic json with
    | some (state, health) =>
      ParsedMessage.DeviceState state ::
        (match health with
          | some h => [ParsedMessage.DeviceHealth h]
          | none => [])
    | none =>
      (match parse_sensor_readings ch topic json with
        | some readings => readings.map ParsedMessage.SensorReading
        | none => []) ++
        (match parse_device_log ch topic json with
          | some log => [ParsedMessage.DeviceLog log]
          | none => [])
  | none =>
    match parse_plain_text_log ch topic payload_str with
    | some log => [ParsedMessage.DeviceLog log]
    | none => []

/-- Embedding of `parse_message` (`mod.rs` lines 8–55): UTF-8 decode (empty
output on failure), a leading raw capture, then the records of
`classifyTail`. -/
def parse_message (jp : String → Option Json) (ch : Chrono) (topic : String)
    (payload : List Nat) : List ParsedMessage :=
  match decodeUtf8 payload with
  | none => []
  | some cs =>
    let payload_str := String.mk cs
    ParsedMessage.SocketRead ⟨topic, payload_str, ch.now⟩ ::
      classifyTail jp ch topic payload_str

/-! ### Record-kind predicates -/

def isSocketRead : ParsedMessage → Bool
  | ParsedMessage.SocketRead _ => true
  | _ => false

def isSensorReading : ParsedMessage → Bool
  | ParsedMessage.SensorReading _ => true
  | _ => false

def isDeviceLog : ParsedMessage → Bool
  | ParsedMessage.DeviceLog _ => true
  | _ => false

def isDeviceState : ParsedMessage → Bool
  | ParsedMessage.DeviceState _ => true
  | _ => false

def isDeviceHealth : ParsedMessage → Bool
  | ParsedMessage.DeviceHealth _ => true
  | _ => false

/-! ### Helper lemmas -/

theorem extract_device_id_isSome (topic : String) (json : Json) :
    ∃ s, extract_device_id topic json = some s := by
  unfold extract_device_id
  split
  · exact ⟨_, rfl⟩
  · cases hf : findDevicePart (topicParts topic) with
    | none =>
      by_cases hlen : 2 ≤ (topicParts topic).length <;> simp [hf, hlen]
    | some part =>
      by_cases hlen : 2 ≤ (topicParts topic).length <;> simp [hf, hlen]

theorem countP_socketRead_map_sensor (rs : List SensorReading) :
    (rs.map ParsedMessage.SensorReading).countP isSocketRead = 0 := by
  simp [List.countP_eq_zero, isSocketRead]

theorem classifyTail_no_socketRead (jp : String → Option Json) (ch : Chrono)
    (topic payload_str : String) :
    (classifyTail jp ch topic payload_str).countP isSocketRead = 0 := by
  unfold classifyTail
  cases hjp : jp payload_str with
  | none =>
    cases hpt : parse_plain_text_log ch topic payload_str <;> simp [isSocketRead]
  | some json =>
    cases hs : parse_device_state_and_health jp ch topic json with
    | some p =>
      obtain ⟨st, h⟩ := p
      cases h <;> simp [hs, isSocketRead]
    | none =>
      cases hr : parse_sensor_readings ch topic json <;>
        cases hl : parse_device_log ch topic json <;>
          simp [hs, hr, hl, isSocketRead, countP_socketRead_map_sensor]

/-- Closed form of `parse_device_state_and_health` when a state field is
present and a device id was extracted. -/
theorem pdsh_eq (jp : String → Option Json) (ch : Chrono) (topic : String)
    (json : Json) (did : String)
    (hdid : extract_device_id topic json = some did)
    (hb : ((json.get "main_state").isSome || (json.get "secondary_state").isSome ||
      (json.get "alerts").isSome || (json.get "rssi").isSome) = true) :
    parse_device_state_and_health jp ch topic json =
      some
        (⟨did, topic,
          ((json.get "main_state").bind Json.as_i64).map castI32,
          ((json.get "secondary_state").bind Json.as_i64).map castI32,
          json.get "alerts",
          ((json.get "rssi").bind Json.as_i64).map castI32,
          extract_timestamp ch json⟩,
        (json.get "health").bind (fun health_value =>
          (healthNorm jp health_value).bind (fun health_json =>
            (health_json.get "general").map (fun (general : Json) =>
              ⟨did, topic,
                (general.get "wifiSsid").bind Json.as_str,
                (general.get "freeHeapSize").bind Json.as_i64,
                (general.get "minHeapSize").bind Json.as_i64,
                ((general.get "unexpectedResetCounter").bind Json.as_i64).map castI32,
                (general.get "lastResetReason").bind Json.as_str,
                ((general.get "wifiConnectCounter").bind Json.as_i64).map castI32,
                ((general.get "cloudConnectCounter").bind Json.as_i64).map castI32,
                (general.get "lastWifiConnectionTs").bind Json.as_i64,
                (general.get "lastCloudConnectionTs").bind Json.as_i64,
                extract_timestamp ch json⟩)))) := by
  unfold parse_device_state_and_health
  simp [hb, hdid]

/-- Fixed chrono instance for concrete evaluations: no date string parses,
no epoch conversion succeeds, and the classification instant is 0. -/
def chronoEx : Chrono := ⟨fun _ => none, fun _ => none, 0⟩

/-- Chrono instance whose RFC 3339 parser accepts exactly the instant of
the spec's timestamp-precedence example and whose epoch converter is
total. -/
def chronoRfc : Chrono :=
  ⟨fun s => if s = "2024-01-01T00:00:00Z" then some 1704067200 else none,
    fun n => some (n * 1000), 42⟩

/-! ### Claims -/

/-- C1: for every topic and every payload that decodes as UTF-8, the output
of `parse_message` starts with a `SocketRead` record carrying the decoded
text and the input topic, and that is the only `SocketRead` in the output;
for every payload that is not valid UTF-8, the output is empty. -/
theorem C1_raw_capture_first_and_unique (jp : String → Option Json) (ch : Chrono)
    (topic : String) (payload : List Nat) :
    (∀ cs, decodeUtf8 payload = some cs →
      (parse_message jp ch topic payload).head? =
        some (ParsedMessage.SocketRead ⟨topic, String.mk cs, ch.now⟩) ∧
      (parse_message jp ch topic payload).countP isSocketRead = 1) ∧
    (decodeUtf8 payload = none → parse_message jp ch topic payload = []) := by
  constructor
  · intro cs hdec
    simp only [parse_message, hdec]
    refine ⟨rfl, ?_⟩
    simp [isSocketRead, classifyTail_no_socketRead]
  · intro hdec
    simp [parse_message, hdec]

/-- Witness for C1 at a concrete valid payload and a concrete invalid
payload. -/
theorem C1_raw_capture_first_and_unique_witness :
    (decodeUtf8 (asciiBytes "hi") = some ("hi".toList) ∧
      (parse_message (fun _ => none) chronoEx "a/b" (asciiBytes "hi")).head? =
        some (ParsedMessage.SocketRead ⟨"a/b", String.mk "hi".toList, chronoEx.now⟩) ∧
      (parse_message (fun _ => none) chronoEx "a/b" (asciiBytes "hi")).countP
        isSocketRead = 1) ∧
    (decodeUtf8 [0xFF] = none ∧
      parse_message (fun _ => none) chronoEx "a/b" [0xFF] = []) := by
  constructor
  · refine ⟨by decide, ?_⟩
    exact (C1_raw_capture_first_and_unique (fun _ => none) chronoEx "a/b"
      (asciiBytes "hi")).1 "hi".toList (by decide)
  · exact ⟨by decide,
      (C1_raw_capture_first_and_unique (fun _ => none) chronoEx "a/b" [0xFF]).2
        (by decide)⟩

/-- C2: classification is total — for every topic and payload (with any
external JSON parser and clock), `parse_message` resolves the input by
fallback: either UTF-8 decoding fails and the output is the empty list, or
the output is the raw-capture record followed by a (possibly empty) tail.
Panic-freedom of the source is rendered by the totality of this dichotomy
over all inputs. -/
theorem C2_classification_total (jp : String → Option Json) (ch : Chrono)
    (topic : String) (payload : List Nat) :
    (decodeUtf8 payload = none ∧ parse_message jp ch topic payload = []) ∨
    (∃ cs rest, decodeUtf8 payload = some cs ∧
      parse_message jp ch topic payload =
        ParsedMessage.SocketRead ⟨topic, String.mk cs, ch.now⟩ :: rest) := by
  cases hdec : decodeUtf8 payload with
  | none => exact Or.inl ⟨rfl, by simp [parse_message, hdec]⟩
  | some cs =>
    refine Or.inr ⟨cs, classifyTail jp ch topic (String.mk cs), rfl, ?_⟩
    simp only [parse_message, hdec]

/-- C3: for every JSON payload holding at least one of `main_state`,
`secondary_state`, `alerts`, `rssi`, classification produces exactly one
DeviceState record (missing fields becoming `none`) and no SensorReading
and no DeviceLog record, regardless of any sensor- or log-shaped fields
also present. -/
theorem C3_state_suppresses_sensor_and_log (jp : String → Option Json)
    (ch : Chrono) (topic : String) (payload : List Nat) (cs : List Char)
    (json : Json)
    (hdec : decodeUtf8 payload = some cs)
    (hjp : jp (String.mk cs) = some json)
    (hstate : (json.get "main_state").isSome = true ∨
      (json.get "secondary_state").isSome = true ∨
      (json.get "alerts").isSome = true ∨ (json.get "rssi").isSome = true) :
    (parse_message jp ch topic payload).countP isDeviceState = 1 ∧
    (parse_message jp ch topic payload).countP isSensorReading = 0 ∧
    (parse_message jp ch topic payload).countP isDeviceLog = 0 ∧
    ∃ st, ParsedMessage.DeviceState st ∈ parse_message jp ch topic payload ∧
      (json.get "main_state" = none → st.main_state = none) ∧
      (json.get "secondary_state" = none → st.secondary_state = none) ∧
      (json.get "alerts" = none → st.alerts = none) ∧
      (json.get "rssi" = none → st.rssi = none) := by
  have hb : ((json.get "main_state").isSome || (json.get "secondary_state").isSome ||
      (json.get "alerts").isSome || (json.get "rssi").isSome) = true := by
    rcases hstate with h | h | h | h <;> simp [h]
  obtain ⟨did, hdid⟩ := extract_device_id_isSome topic json
  have hpdsh := pdsh_eq jp ch topic json did hdid hb
  rcases hx : parse_device_state_and_health jp ch topic json with _ | ⟨st, hopt⟩
  · rw [hpdsh] at hx; cases hx
  · have hout : parse_message jp ch topic payload =
        ParsedMessage.SocketRead ⟨topic, String.mk cs, ch.now⟩ ::
          ParsedMessage.DeviceState st ::
          (match hopt with
            | some h => [ParsedMessage.DeviceHealth h]
            | none => []) := by
      simp only [parse_message, hdec]
      unfold classifyTail
      simp only [hjp, hx]
      cases hopt <;> rfl
    rw [hpdsh] at hx
    have hpair := Option.some.inj hx
    rw [Prod.mk.injEq] at hpair
    obtain ⟨hst, hh⟩ := hpair
    refine ⟨?_, ?_, ?_, st, ?_, ?_, ?_, ?_, ?_⟩
    · rw [hout]; cases hopt <;> simp [isDeviceState]
    · rw [hout]; cases hopt <;> simp [isSensorReading]
    · rw [hout]; cases hopt <;> simp [isDeviceLog]
    · rw [hout]; simp
    · intro hnone; rw [← hst]; simp [hnone]
    · intro hnone; rw [← hst]; simp [hnone]
    · intro hnone; rw [← hst]; simp [hnone]
    · intro hnone; rw [← hst]; simp [hnone]

/-- Payload text of the spec's mutual-exclusion example. -/
def payloadC3 : String := "\x7b\"rssi\": -40, \"level\":\"INFO\",\"message\":\"hi\"\x7d"

/-- JSON value `serde_json` yields for `payloadC3`. -/
def jsonC3 : Json :=
  Json.obj [("rssi", Json.num (JNum.int (-40))), ("level", Json.str "INFO"),
    ("message", Json.str "hi")]

/-- Instance of the external JSON parser for the mutual-exclusion example. -/
def jpC3 : String → Option Json :=
  fun s => if s = payloadC3 then some jsonC3 else none

/-- Witness for C3 at the spec's example
`{"rssi": -40, "level":"INFO","message":"hi"}` on topic `t/dev00000001`. -/
theorem C3_state_suppresses_sensor_and_log_witness :
    (decodeUtf8 (asciiBytes payloadC3) = some payloadC3.toList ∧
      jpC3 (String.mk payloadC3.toList) = some jsonC3 ∧
      (jsonC3.get "rssi").isSome = true) ∧
    ((parse_message jpC3 chronoEx "t/dev00000001" (asciiBytes payloadC3)).countP
        isDeviceState = 1 ∧
      (parse_message jpC3 chronoEx "t/dev00000001" (asciiBytes payloadC3)).countP
        isSensorReading = 0 ∧
      (parse_message jpC3 chronoEx "t/dev00000001" (asciiBytes payloadC3)).countP
        isDeviceLog = 0 ∧
      ∃ st, ParsedMessage.DeviceState st ∈
          parse_message jpC3 chronoEx "t/dev00000001" (asciiBytes payloadC3) ∧
        (jsonC3.get "main_state" = none → st.main_state = none) ∧
        (jsonC3.get "secondary_state" = none → st.secondary_state = none) ∧
        (jsonC3.get "alerts" = none → st.alerts = none) ∧
        (jsonC3.get "rssi" = none → st.rssi = none)) :=
  ⟨⟨by decide, rfl, by decide⟩,
    C3_state_suppresses_sensor_and_log jpC3 chronoEx "t/dev00000001"
      (asciiBytes payloadC3) payloadC3.toList jsonC3 (by decide) rfl
      (Or.inr (Or.inr (Or.inr (by decide))))⟩

/-- Payload text of the spec's non-exclusion example. -/
def payloadC4 : String := "\x7b\"value\": 21.5, \"level\":\"INFO\",\"message\":\"hi\"\x7d"

/-- JSON value `serde_json` yields for `payloadC4` (21.5 = 43/2). -/
def jsonC4 : Json :=
  Json.obj [("value", Json.num (JNum.float ((43 : Rat) / 2))),
    ("level", Json.str "INFO"), ("message", Json.str "hi")]

/-- Instance of the external JSON parser for the non-exclusion example. -/
def jpC4 : String → Option Json :=
  fun s => if s = payloadC4 then some jsonC4 else none

/-- Counterexample to C4: on `{"value": 21.5, "level":"INFO","message":"hi"}`
at topic `t/dev00000001`, classification produces TWO SensorReading records,
not one — the flat-object scan does not exclude the key `value`, so the
single-value path and this scan both fire. -/
theorem C4_counterexample :
    (parse_message jpC4 chronoEx "t/dev00000001" (asciiBytes payloadC4)).countP
        isSensorReading = 2 ∧
    ¬ (parse_message jpC4 chronoEx "t/dev00000001" (asciiBytes payloadC4)).countP
        isSensorReading = 1 := by
  constructor
  · decide
  · decide

/-- C4 as amended: the example payload yields the raw capture, exactly two
SensorReading records (one at the message topic from the `value` field, one
at `topic/value` from the flat scan of the same field) and exactly one
DeviceLog record, in that order. -/
theorem C4_amended_two_readings_one_log :
    parse_message jpC4 chronoEx "t/dev00000001" (asciiBytes payloadC4) =
      [ParsedMessage.SocketRead ⟨"t/dev00000001", payloadC4, 0⟩,
        ParsedMessage.SensorReading
          ⟨"dev00000001", "t/dev00000001", (43 : Rat) / 2, 0⟩,
        ParsedMessage.SensorReading
          ⟨"dev00000001", "t/dev00000001/value", (43 : Rat) / 2, 0⟩,
        ParsedMessage.DeviceLog
          ⟨"dev00000001", "INFO", "hi", "t/dev00000001", 0⟩] ∧
    (parse_message jpC4 chronoEx "t/dev00000001" (asciiBytes payloadC4)).countP
        isSensorReading = 2 ∧
    (parse_message jpC4 chronoEx "t/dev00000001" (asciiBytes payloadC4)).countP
        isDeviceLog = 1 := by
  refine ⟨rfl, by decide, by decide⟩

theorem findDevicePart_eq_find (l : List String) :
    findDevicePart l =
      l.find? (fun part => strStarts part "device" || decide (8 ≤ byteLen part)) := by
  induction l with
  | nil => rfl
  | cons a t ih =>
    by_cases h : (strStarts a "device" || decide (8 ≤ byteLen a)) = true
    · simp [findDevicePart, List.find?_cons, h]
    · simp [findDevicePart, List.find?_cons, h, ih]

/-- Counterexample to C5: on the single-segment topic `device42` (no JSON
device fields), the claimed rule picks the segment `device42`, but the
source only scans topic segments when there are at least two of them
(`parts.len() >= 2`), so extraction yields `unknown`. -/
theorem C5_counterexample :
    extract_device_id "device42" (Json.obj []) = some "unknown" ∧
    ¬ extract_device_id "device42" (Json.obj []) = some "device42" := by
  exact ⟨by decide, by decide⟩

/-- Device-id selection as the amended claim words it: the JSON string field
`device_id`, else `deviceId`, else `device` (first present wins); otherwise,
when the topic has at least two segments (split on `/`), the first segment
starting with `device` or at least 8 bytes long, defaulting to `unknown`;
otherwise (fewer than two segments) `unknown`. -/
def deviceIdSpec (topic : String) (json : Json) : String :=
  match ((json.get "device_id" <|> json.get "deviceId") <|> json.get "device").bind
      Json.as_str with
  | some id => id
  | none =>
    if 2 ≤ (topicParts topic).length then
      ((topicParts topic).find? (fun part =>
          strStarts part "device" || decide (8 ≤ byteLen part))).getD "unknown"
    else "unknown"

/-- C5 as amended: device-id extraction always returns a value, and that
value is the one selected by `deviceIdSpec` — JSON fields first, then the
topic-segment scan guarded by the two-segment condition, then `unknown`. -/
theorem C5_amended_device_id_extraction (topic : String) (json : Json) :
    extract_device_id topic json = some (deviceIdSpec topic json) := by
  unfold extract_device_id deviceIdSpec
  cases h : ((json.get "device_id" <|> json.get "deviceId") <|> json.get "device").bind
      Json.as_str with
  | some id => simp [h]
  | none =>
    simp only [h]
    rw [← findDevicePart_eq_find]
    by_cases hlen : 2 ≤ (topicParts topic).length
    · cases hf : findDevicePart (topicParts topic) with
      | some part => simp [hf, hlen]
      | none => simp [hf, hlen]
    · simp [hlen]

/-- Counterexample to C6: on topic `ERROR/x` with non-JSON text `hello`, a
case-insensitive match of `error` against the topic would demand level
`ERROR`, but the source matches the raw topic case-sensitively
(`topic.contains("error")`, only the text is lowercased), so the level is
`INFO`. -/
theorem C6_counterexample :
    (parse_plain_text_log chronoEx "ERROR/x" "hello").map DeviceLog.level =
      some "INFO" ∧
    ¬ (parse_plain_text_log chronoEx "ERROR/x" "hello").map DeviceLog.level =
      some "ERROR" := by
  exact ⟨by decide, by decide⟩

/-- C6 as amended: the plain-text classifier always produces exactly one
DeviceLog whose message is the verbatim text, whose device id is the first
non-empty topic segment other than `diagnostics`, `debug`, `logs`
(defaulting to `unknown`), and whose level is decided in order by
substring tests that are case-SENSITIVE on the topic and case-insensitive
on the text: `error` in the raw topic or lowercased text → `ERROR`; else
`warn` likewise → `WARN`; else `debug` or `diagnostics` in the raw topic →
`DEBUG`; else `INFO`. -/
theorem C6_amended_plain_text_log (ch : Chrono) (topic text : String) :
    ∃ log, parse_plain_text_log ch topic text = some log ∧
      log.message = text ∧ log.topic = topic ∧ log.timestamp = ch.now ∧
      log.device_id = ((topicParts topic).find? (fun part =>
        decide (part ≠ "" ∧ part ≠ "diagnostics" ∧ part ≠ "debug" ∧
          part ≠ "logs"))).getD "unknown" ∧
      ((strContains topic "error" = true ∨
          strContains (lowerString text) "error" = true) →
        log.level = "ERROR") ∧
      (¬ (strContains topic "error" = true ∨
          strContains (lowerString text) "error" = true) →
        (strContains topic "warn" = true ∨
          strContains (lowerString text) "warn" = true) →
        log.level = "WARN") ∧
      (¬ (strContains topic "error" = true ∨
          strContains (lowerString text) "error" = true) →
        ¬ (strContains topic "warn" = true ∨
          strContains (lowerString text) "warn" = true) →
        (strContains topic "debug" = true ∨ strContains topic "diagnostics" = true) →
        log.level = "DEBUG") ∧
      (¬ (strContains topic "error" = true ∨
          strContains (lowerString text) "error" = true) →
        ¬ (strContains topic "warn" = true ∨
          strContains (lowerString text) "warn" = true) →
        ¬ (strContains topic "debug" = true ∨ strContains topic "diagnostics" = true) →
        log.level = "INFO") := by
  refine ⟨_, rfl, rfl, rfl, rfl, rfl, ?_, ?_, ?_, ?_⟩
  · intro hE
    have he : (strContains topic "error" || strContains (lowerString text) "error") =
        true := by rcases hE with h | h <;> simp [h]
    simp [parse_plain_text_log, he]
  · intro hE hW
    have he : (strContains topic "error" || strContains (lowerString text) "error") =
        false := by
      cases hA : strContains topic "error" <;>
        cases hB : strContains (lowerString text) "error" <;> simp_all
    have hw : (strContains topic "warn" || strContains (lowerString text) "warn") =
        true := by rcases hW with h | h <;> simp [h]
    simp [parse_plain_text_log, he, hw]
  · intro hE hW hD
    have he : (strContains topic "error" || strContains (lowerString text) "error") =
        false := by
      cases hA : strContains topic "error" <;>
        cases hB : strContains (lowerString text) "error" <;> simp_all
    have hw : (strContains topic "warn" || strContains (lowerString text) "warn") =
        false := by
      cases hA : strContains topic "warn" <;>
        cases hB : strContains (lowerString text) "warn" <;> simp_all
    have hd : (strContains topic "debug" || strContains topic "diagnostics") =
        true := by rcases hD with h | h <;> simp [h]
    simp [parse_plain_text_log, he, hw, hd]
  · intro hE hW hD
    have he : (strContains topic "error" || strContains (lowerString text) "error") =
        false := by
      cases hA : strContains topic "error" <;>
        cases hB : strContains (lowerString text) "error" <;> simp_all
    have hw : (strContains topic "warn" || strContains (lowerString text) "warn") =
        false := by
      cases hA : strContains topic "warn" <;>
        cases hB : strContains (lowerString text) "warn" <;> simp_all
    have hd : (strContains topic "debug" || strContains topic "diagnostics") =
        false := by
      cases hA : strContains topic "debug" <;>
        cases hB : strContains topic "diagnostics" <;> simp_all
    simp [parse_plain_text_log, he, hw, hd]

/-- Witness for C6 as amended, at the spec's plain-text example: non-JSON
payload `connection lost` on topic `diagnostics/dev1/logs` yields level
`DEBUG` and device id `dev1`. -/
theorem C6_amended_plain_text_log_witness :
    ∃ log, parse_plain_text_log chronoEx "diagnostics/dev1/logs" "connection lost" =
        some log ∧ log.level = "DEBUG" ∧ log.device_id = "dev1" := by
  obtain ⟨log, heq, hmsg, htop, hts, hdid, hE, hW, hD, hI⟩ :=
    C6_amended_plain_text_log chronoEx "diagnostics/dev1/logs" "connection lost"
  refine ⟨log, heq, ?_, ?_⟩
  · exact hD (by decide) (by decide) (by decide)
  · rw [hdid]; decide

/-- C7: timestamp extraction follows the strict priority of the claim: the
field `timestamp`, else `ts`, is chosen; a string value that the RFC 3339
parser accepts wins (even when a numeric `ts` is also present — the spec's
precedence example is the last conjunct in general form); else an
integer-backed numeric value is converted as Unix epoch seconds; any
sub-step failure falls through, ending at the classification instant. -/
theorem C7_timestamp_priority (ch : Chrono) (json : Json) :
    (∀ s t, json.get "timestamp" = some (Json.str s) →
      ch.parseRfc3339 s = some t → extract_timestamp ch json = t) ∧
    (∀ s t, json.get "timestamp" = none → json.get "ts" = some (Json.str s) →
      ch.parseRfc3339 s = some t → extract_timestamp ch json = t) ∧
    (∀ v n t, (json.get "timestamp" <|> json.get "ts") = some v →
      v.as_str.bind ch.parseRfc3339 = none → v.as_i64 = some n →
      ch.fromTimestamp n = some t → extract_timestamp ch json = t) ∧
    (∀ v, (json.get "timestamp" <|> json.get "ts") = some v →
      v.as_str.bind ch.parseRfc3339 = none →
      v.as_i64.bind ch.fromTimestamp = none →
      extract_timestamp ch json = ch.now) ∧
    (json.get "timestamp" = none → json.get "ts" = none →
      extract_timestamp ch json = ch.now) ∧
    (∀ s n t, json.get "timestamp" = some (Json.str s) →
      json.get "ts" = some (Json.num (JNum.int n)) →
      ch.parseRfc3339 s = some t → extract_timestamp ch json = t) := by
  refine ⟨?_, ?_, ?_, ?_, ?_, ?_⟩
  · intro s t h1 h2
    simp [extract_timestamp, h1, Json.as_str, h2]
  · intro s t h1 h1b h2
    simp [extract_timestamp, h1, h1b, Json.as_str, h2]
  · intro v n t hc hrfc hi hft
    simp [extract_timestamp, hc, hrfc, hi, hft]
  · intro v hc hrfc hift
    simp [extract_timestamp, hc, hrfc, hift]
  · intro h1 h2
    simp [extract_timestamp, h1, h2]
  · intro s n t h1 h2 h3
    simp [extract_timestamp, h1, Json.as_str, h3]

/-- JSON value of the spec's timestamp-precedence example. -/
def jsonC7 : Json :=
  Json.obj [("timestamp", Json.str "2024-01-01T00:00:00Z"),
    ("ts", Json.num (JNum.int 1700000000))]

/-- Witness for C7 at the precedence example: with a chrono oracle that
parses the RFC 3339 string to instant 1704067200, extraction returns that
instant, not the epoch value. -/
theorem C7_timestamp_priority_witness :
    (jsonC7.get "timestamp" = some (Json.str "2024-01-01T00:00:00Z") ∧
      jsonC7.get "ts" = some (Json.num (JNum.int 1700000000)) ∧
      chronoRfc.parseRfc3339 "2024-01-01T00:00:00Z" = some 1704067200) ∧
    extract_timestamp chronoRfc jsonC7 = 1704067200 :=
  ⟨⟨rfl, rfl, rfl⟩,
    (C7_timestamp_priority chronoRfc jsonC7).2.2.2.2.2 "2024-01-01T00:00:00Z"
      1700000000 1704067200 rfl rfl rfl⟩

/-- Counterexample to C8: on `{"level":"","message":""}` both fields are
present but EMPTY strings; the claim demands that no log record be
produced, yet the source never tests for emptiness and produces a record
with empty level and message. -/
theorem C8_counterexample :
    (parse_device_log chronoEx "a/b"
        (Json.obj [("level", Json.str ""), ("message", Json.str "")])).map
      DeviceLog.level = some "" ∧
    (parse_device_log chronoEx "a/b"
        (Json.obj [("level", Json.str ""), ("message", Json.str "")])).map
      DeviceLog.message = some "" ∧
    ¬ (parse_device_log chronoEx "a/b"
        (Json.obj [("level", Json.str ""), ("message", Json.str "")])) = none := by
  exact ⟨by decide, by decide, by decide⟩

/-- C8 as amended: a JSON device log is produced if and only if a
level-like field (`level`, else `severity`) and a message-like field
(`message`, else `msg`, else `text`, in that priority) are both present as
strings — possibly empty; when produced, the record's level and message
equal those field values. -/
theorem C8_amended_device_log_iff (ch : Chrono) (topic : String) (json : Json) :
    ((parse_device_log ch topic json).isSome = true ↔
      (∃ s, (json.get "level" <|> json.get "severity").bind Json.as_str = some s) ∧
      (∃ m, ((json.get "message" <|> json.get "msg") <|> json.get "text").bind
        Json.as_str = some m)) ∧
    (∀ log, parse_device_log ch topic json = some log →
      (json.get "level" <|> json.get "severity").bind Json.as_str =
        some log.level ∧
      ((json.get "message" <|> json.get "msg") <|> json.get "text").bind
        Json.as_str = some log.message) := by
  cases hl : (json.get "level" <|> json.get "severity").bind Json.as_str with
  | none => simp [parse_device_log, hl]
  | some lv =>
    cases hm : ((json.get "message" <|> json.get "msg") <|> json.get "text").bind
        Json.as_str with
    | none => simp [parse_device_log, hl, hm]
    | some ms =>
      obtain ⟨did, hdid⟩ := extract_device_id_isSome topic json
      refine ⟨by simp [parse_device_log, hl, hm, hdid], ?_⟩
      intro log hlog
      simp [parse_device_log, hl, hm, hdid] at hlog
      subst hlog
      exact ⟨rfl, rfl⟩

/-- JSON value used by the C8 witness: `severity` and `msg` variants. -/
def jsonC8 : Json :=
  Json.obj [("severity", Json.str "warn"), ("msg", Json.str "battery low")]

/-- Witness for C8 as amended, at `{"severity":"warn","msg":"battery low"}`
on topic `a/b`: a log is produced and its level and message equal the field
values. -/
theorem C8_amended_device_log_iff_witness :
    (parse_device_log chronoEx "a/b" jsonC8).isSome = true ∧
    (jsonC8.get "level" <|> jsonC8.get "severity").bind Json.as_str =
      some (DeviceLog.level ⟨"unknown", "warn", "battery low", "a/b", 0⟩) :=
  ⟨((C8_amended_device_log_iff chronoEx "a/b" jsonC8).1).mpr
      ⟨⟨"warn", rfl⟩, ⟨"battery low", rfl⟩⟩,
    ((C8_amended_device_log_iff chronoEx "a/b" jsonC8).2
      ⟨"unknown", "warn", "battery low", "a/b", 0⟩ rfl).1⟩

theorem health_mem_tail (jp : String → Option Json) (ch : Chrono)
    (topic payload_str : String) (h : DeviceHealth)
    (hmem : ParsedMessage.DeviceHealth h ∈ classifyTail jp ch topic payload_str) :
    ∃ st, ParsedMessage.DeviceState st ∈ classifyTail jp ch topic payload_str := by
  unfold classifyTail at hmem ⊢
  cases hjp : jp payload_str with
  | none =>
    simp only [hjp] at hmem
    cases hpt : parse_plain_text_log ch topic payload_str <;>
      simp [hpt] at hmem
  | some json =>
    simp only [hjp] at hmem ⊢
    cases hs : parse_device_state_and_health jp ch topic json with
    | some p =>
      obtain ⟨st, hopt⟩ := p
      simp only [hs]
      exact ⟨st, by simp⟩
    | none =>
      simp only [hs] at hmem
      cases hr : parse_sensor_readings ch topic json <;>
        cases hl : parse_device_log ch topic json <;>
          simp [hr, hl] at hmem

/-- C9: a DeviceHealth record is never produced without an accompanying
DeviceState record from the same message; and when the `health` field is
absent, is a string the JSON parser rejects, or normalizes to a value with
no `general` sub-object, no DeviceHealth record is produced while the
DeviceState record is still emitted. -/
theorem C9_health_never_without_state (jp : String → Option Json) (ch : Chrono)
    (topic : String) (payload : List Nat) :
    (∀ h, ParsedMessage.DeviceHealth h ∈ parse_message jp ch topic payload →
      ∃ st, ParsedMessage.DeviceState st ∈ parse_message jp ch topic payload) ∧
    (∀ cs json, decodeUtf8 payload = some cs → jp (String.mk cs) = some json →
      ((json.get "main_state").isSome || (json.get "secondary_state").isSome ||
        (json.get "alerts").isSome || (json.get "rssi").isSome) = true →
      (json.get "health" = none ∨
        (∃ s, json.get "health" = some (Json.str s) ∧ jp s = none) ∨
        (∃ v hj, json.get "health" = some v ∧ healthNorm jp v = some hj ∧
          hj.get "general" = none)) →
      (∃ st, ParsedMessage.DeviceState st ∈ parse_message jp ch topic payload) ∧
      (parse_message jp ch topic payload).countP isDeviceHealth = 0) := by
  constructor
  · intro h hmem
    cases hdec : decodeUtf8 payload with
    | none => simp [parse_message, hdec] at hmem
    | some cs =>
      simp only [parse_message, hdec] at hmem ⊢
      rcases List.mem_cons.mp hmem with heq | htail
      · cases heq
      · obtain ⟨st, hst⟩ := health_mem_tail jp ch topic _ h htail
        exact ⟨st, List.mem_cons_of_mem _ hst⟩
  · intro cs json hdec hjp hb hdisj
    obtain ⟨did, hdid⟩ := extract_device_id_isSome topic json
    have hpdsh := pdsh_eq jp ch topic json did hdid hb
    rcases hx : parse_device_state_and_health jp ch topic json with _ | ⟨st, hopt⟩
    · rw [hpdsh] at hx; cases hx
    · rw [hx] at hpdsh
      rw [Option.some.injEq, Prod.mk.injEq] at hpdsh
      obtain ⟨hst, hh⟩ := hpdsh
      have hoptnone : hopt = none := by
        rw [hh]
        rcases hdisj with h1 | ⟨s, h1, h2⟩ | ⟨v, hj, h1, h2, h3⟩
        · simp [h1]
        · simp [h1, healthNorm, Json.as_str, h2]
        · simp [h1, h2, h3]
      subst hoptnone
      have hout : parse_message jp ch topic payload =
          [ParsedMessage.SocketRead ⟨topic, String.mk cs, ch.now⟩,
            ParsedMessage.DeviceState st] := by
        simp only [parse_message, hdec]
        unfold classifyTail
        simp only [hjp, hx]
      rw [hout]
      exact ⟨⟨st, by simp⟩, by simp [isDeviceHealth]⟩

/-- Witness for C9: at the concrete state message `{"rssi": -40, ...}` of
`payloadC3` (no `health` field), a DeviceState record is in the output and
no DeviceHealth record is; the membership half is exercised vacuously by
the produced output having no DeviceHealth member. -/
theorem C9_health_never_without_state_witness :
    (decodeUtf8 (asciiBytes payloadC3) = some payloadC3.toList ∧
      jpC3 (String.mk payloadC3.toList) = some jsonC3 ∧
      jsonC3.get "health" = none) ∧
    ((∃ st, ParsedMessage.DeviceState st ∈
        parse_message jpC3 chronoEx "t/dev00000001" (asciiBytes payloadC3)) ∧
      (parse_message jpC3 chronoEx "t/dev00000001"
        (asciiBytes payloadC3)).countP isDeviceHealth = 0) :=
  ⟨⟨by decide, rfl, rfl⟩,
    (C9_health_never_without_state jpC3 chronoEx "t/dev00000001"
        (asciiBytes payloadC3)).2 payloadC3.toList jsonC3 (by decide) rfl
      (by decide) (Or.inl rfl)⟩

/-- C10: an integer representable in i64 but outside the i32 range that
appears in `main_state`, `secondary_state` or `rssi` (or in the health
counters `unexpectedResetCounter`, `wifiConnectCounter`,
`cloudConnectCounter`) is stored wrapped — reduced modulo 2^32 and
reinterpreted as a signed 32-bit value by `castI32` — rather than dropped
as absent. -/
theorem C10_out_of_range_ints_wrap (jp : String → Option Json) (ch : Chrono)
    (topic : String) (json : Json) :
    (∀ i, json.get "main_state" = some (Json.num (JNum.int i)) →
      -(2 ^ 63) ≤ i → i < 2 ^ 63 → (i < -(2 ^ 31) ∨ 2 ^ 31 ≤ i) →
      ∃ st h, parse_device_state_and_health jp ch topic json = some (st, h) ∧
        st.main_state = some (castI32 i)) ∧
    (∀ i, json.get "secondary_state" = some (Json.num (JNum.int i)) →
      -(2 ^ 63) ≤ i → i < 2 ^ 63 → (i < -(2 ^ 31) ∨ 2 ^ 31 ≤ i) →
      ∃ st h, parse_device_state_and_health jp ch topic json = some (st, h) ∧
        st.secondary_state = some (castI32 i)) ∧
    (∀ i, json.get "rssi" = some (Json.num (JNum.int i)) →
      -(2 ^ 63) ≤ i → i < 2 ^ 63 → (i < -(2 ^ 31) ∨ 2 ^ 31 ≤ i) →
      ∃ st h, parse_device_state_and_health jp ch topic json = some (st, h) ∧
        st.rssi = some (castI32 i)) ∧
    (∀ i v hj g,
      ((json.get "main_state").isSome || (json.get "secondary_state").isSome ||
        (json.get "alerts").isSome || (json.get "rssi").isSome) = true →
      json.get "health" = some v → healthNorm jp v = some hj →
      hj.get "general" = some g →
      g.get "unexpectedResetCounter" = some (Json.num (JNum.int i)) →
      -(2 ^ 63) ≤ i → i < 2 ^ 63 → (i < -(2 ^ 31) ∨ 2 ^ 31 ≤ i) →
      ∃ st h, parse_device_state_and_health jp ch topic json = some (st, some h) ∧
        h.unexpected_reset_counter = some (castI32 i)) ∧
    (∀ i v hj g,
      ((json.get "main_state").isSome || (json.get "secondary_state").isSome ||
        (json.get "alerts").isSome || (json.get "rssi").isSome) = true →
      json.get "health" = some v → healthNorm jp v = some hj →
      hj.get "general" = some g →
      g.get "wifiConnectCounter" = some (Json.num (JNum.int i)) →
      -(2 ^ 63) ≤ i → i < 2 ^ 63 → (i < -(2 ^ 31) ∨ 2 ^ 31 ≤ i) →
      ∃ st h, parse_device_state_and_health jp ch topic json = some (st, some h) ∧
        h.wifi_connect_counter = some (castI32 i)) ∧
    (∀ i v hj g,
      ((json.get "main_state").isSome || (json.get "secondary_state").isSome ||
        (json.get "alerts").isSome || (json.get "rssi").isSome) = true →
      json.get "health" = some v → healthNorm jp v = some hj →
      hj.get "general" = some g →
      g.get "cloudConnectCounter" = some (Json.num (JNum.int i)) →
      -(2 ^ 63) ≤ i → i < 2 ^ 63 → (i < -(2 ^ 31) ∨ 2 ^ 31 ≤ i) →
      ∃ st h, parse_device_state_and_health jp ch topic json = some (st, some h) ∧
        h.cloud_connect_counter = some (castI32 i)) := by
  obtain ⟨did, hdid⟩ := extract_device_id_isSome topic json
  refine ⟨?_, ?_, ?_, ?_, ?_, ?_⟩
  · intro i h1 h64a h64b hout
    have hb : ((json.get "main_state").isSome || (json.get "secondary_state").isSome ||
        (json.get "alerts").isSome || (json.get "rssi").isSome) = true := by
      simp [h1]
    have hpdsh := pdsh_eq jp ch topic json did hdid hb
    refine ⟨_, _, hpdsh, ?_⟩
    simp [h1, Json.as_i64, h64a, h64b]
    exact ⟨h64a, h64b⟩
  · intro i h1 h64a h64b hout
    have hb : ((json.get "main_state").isSome || (json.get "secondary_state").isSome ||
        (json.get "alerts").isSome || (json.get "rssi").isSome) = true := by
      simp [h1]
    have hpdsh := pdsh_eq jp ch topic json did hdid hb
    refine ⟨_, _, hpdsh, ?_⟩
    simp [h1, Json.as_i64, h64a, h64b]
    exact ⟨h64a, h64b⟩
  · intro i h1 h64a h64b hout
    have hb : ((json.get "main_state").isSome || (json.get "secondary_state").isSome ||
        (json.get "alerts").isSome || (json.get "rssi").isSome) = true := by
      simp [h1]
    have hpdsh := pdsh_eq jp ch topic json did hdid hb
    refine ⟨_, _, hpdsh, ?_⟩
    simp [h1, Json.as_i64, h64a, h64b]
    exact ⟨h64a, h64b⟩
  · intro i v hj g hb hv hnorm hgen hctr h64a h64b hout
    have hpdsh := pdsh_eq jp ch topic json did hdid hb
    rcases hx : parse_device_state_and_health jp ch topic json with _ | ⟨st, hopt⟩
    · rw [hpdsh] at hx; cases hx
    · rw [hx] at hpdsh
      rw [Option.some.injEq, Prod.mk.injEq] at hpdsh
      obtain ⟨hst, hh⟩ := hpdsh
      simp [hv, hnorm, hgen] at hh
      subst hh
      refine ⟨st, _, rfl, ?_⟩
      simp [hctr, Json.as_i64, h64a, h64b]
      exact ⟨h64a, h64b⟩
  · intro i v hj g hb hv hnorm hgen hctr h64a h64b hout
    have hpdsh := pdsh_eq jp ch topic json did hdid hb
    rcases hx : parse_device_state_and_health jp ch topic json with _ | ⟨st, hopt⟩
    · rw [hpdsh] at hx; cases hx
    · rw [hx] at hpdsh
      rw [Option.some.injEq, Prod.mk.injEq] at hpdsh
      obtain ⟨hst, hh⟩ := hpdsh
      simp [hv, hnorm, hgen] at hh
      subst hh
      refine ⟨st, _, rfl, ?_⟩
      simp [hctr, Json.as_i64, h64a, h64b]
      exact ⟨h64a, h64b⟩
  · intro i v hj g hb hv hnorm hgen hctr h64a h64b hout
    have hpdsh := pdsh_eq jp ch topic json did hdid hb
    rcases hx : parse_device_state_and_health jp ch topic json with _ | ⟨st, hopt⟩
    · rw [hpdsh] at hx; cases hx
    · rw [hx] at hpdsh
      rw [Option.some.injEq, Prod.mk.injEq] at hpdsh
      obtain ⟨hst, hh⟩ := hpdsh
      simp [hv, hnorm, hgen] at hh
      subst hh
      refine ⟨st, _, rfl, ?_⟩
      simp [hctr, Json.as_i64, h64a, h64b]
      exact ⟨h64a, h64b⟩

/-- The `general` health sub-object of the C10 witness, with counters
outside the i32 range. -/
def generalC10 : Json :=
  Json.obj [("unexpectedResetCounter", Json.num (JNum.int (2 ^ 31 + 7))),
    ("wifiConnectCounter", Json.num (JNum.int (-(2 ^ 35)))),
    ("cloudConnectCounter", Json.num (JNum.int (2 ^ 62)))]

/-- The `health` value of the C10 witness (a direct object). -/
def healthC10 : Json := Json.obj [("general", generalC10)]

/-- State message of the C10 witness: i64 values outside the i32 range. -/
def jsonC10 : Json :=
  Json.obj [("main_state", Json.num (JNum.int (2 ^ 31))),
    ("health", healthC10)]

/-- Witness for C10: `main_state = 2^31` is stored as the wrapped value
`castI32 (2^31) = -2^31`, and the out-of-range health counter
`unexpectedResetCounter = 2^31 + 7` is stored as `-2^31 + 7`. -/
theorem C10_out_of_range_ints_wrap_witness :
    ((∃ st h, parse_device_state_and_health (fun _ => none) chronoEx "a/b"
          jsonC10 = some (st, h) ∧ st.main_state = some (castI32 (2 ^ 31))) ∧
      (∃ st h, parse_device_state_and_health (fun _ => none) chronoEx "a/b"
          jsonC10 = some (st, some h) ∧
        h.unexpected_reset_counter = some (castI32 (2 ^ 31 + 7)))) ∧
    castI32 (2 ^ 31) = -(2 ^ 31) ∧ castI32 (2 ^ 31 + 7) = -(2 ^ 31) + 7 :=
  ⟨⟨(C10_out_of_range_ints_wrap (fun _ => none) chronoEx "a/b" jsonC10).1
        (2 ^ 31) rfl (by decide) (by decide) (Or.inr (by decide)),
      (C10_out_of_range_ints_wrap (fun _ => none) chronoEx "a/b" jsonC10).2.2.2.1
        (2 ^ 31 + 7) healthC10 healthC10 generalC10 (by decide) rfl rfl rfl rfl
        (by decide) (by decide) (Or.inr (by decide))⟩,
    by decide, by decide⟩

end Desmo
